import Mathlib

/-!
# Verification of the go-telemetry configuration and assembly core

Shallow embedding of the enablement resolver (`config.go`), the provider
assembly (`telemetry.go`), the shutdown sequence, the caller-location
resolver (`logger/caller.go`), and the per-backend OTel emission sinks
(zap core, logrus hook, slog handler), together with proofs of the spec
claims about them.

The process environment is modelled as a record of the twelve variables
the code reads (`os.Getenv` returns `""` for an unset variable, so the
empty string doubles as "unset", exactly as in Go).
-/

namespace Telemetry

/-- The environment variables consumed by the library. A field value of
`""` means the variable is unset, matching `os.Getenv`. -/
structure Env where
  OTEL_SDK_DISABLED : String := ""
  OTEL_EXPORTER_OTLP_ENDPOINT : String := ""
  OTEL_EXPORTER_OTLP_TRACES_ENDPOINT : String := ""
  OTEL_EXPORTER_OTLP_METRICS_ENDPOINT : String := ""
  OTEL_EXPORTER_OTLP_LOGS_ENDPOINT : String := ""
  OTEL_TRACES_EXPORTER : String := ""
  OTEL_METRICS_EXPORTER : String := ""
  OTEL_LOGS_EXPORTER : String := ""
  OTEL_SERVICE_NAME : String := ""
  OTEL_SERVICE_VERSION : String := ""
  PROMETHEUS_PORT : String := ""
  PROMETHEUS_PATH : String := ""
deriving DecidableEq, Repr

/-- Go `strconv.ParseBool` returns `(true, nil)` exactly for the six
strings below; on any other input it returns `(false, err)`.
`shouldEnableOTel` discards the error (`disabled, _ := strconv.ParseBool`),
so the guard it takes is exactly membership in this set. -/
def parseBoolTrue (s : String) : Bool :=
  s == "1" || s == "t" || s == "T" || s == "TRUE" || s == "true" || s == "True"

/-- `shouldEnableOTel` from `config.go` lines 86-121: kill-switch first,
then the four OTLP endpoint variables, then the three per-signal
exporter-name variables. -/
def shouldEnableOTel (env : Env) : Bool :=
  if parseBoolTrue env.OTEL_SDK_DISABLED then false
  else if env.OTEL_EXPORTER_OTLP_ENDPOINT ≠ "" then true
  else if env.OTEL_EXPORTER_OTLP_TRACES_ENDPOINT ≠ "" then true
  else if env.OTEL_EXPORTER_OTLP_METRICS_ENDPOINT ≠ "" then true
  else if env.OTEL_EXPORTER_OTLP_LOGS_ENDPOINT ≠ "" then true
  else if env.OTEL_TRACES_EXPORTER ≠ "" ∧ env.OTEL_TRACES_EXPORTER ≠ "none" then true
  else if env.OTEL_METRICS_EXPORTER ≠ "" ∧ env.OTEL_METRICS_EXPORTER ≠ "none" then true
  else if env.OTEL_LOGS_EXPORTER ≠ "" ∧ env.OTEL_LOGS_EXPORTER ≠ "none" then true
  else false

/-- `shouldEnableTraces` from `config.go` lines 124-131. -/
def shouldEnableTraces (env : Env) : Bool :=
  if ¬ shouldEnableOTel env then false
  else env.OTEL_TRACES_EXPORTER != "none"

/-- `shouldEnableMetrics` from `config.go` lines 134-141. -/
def shouldEnableMetrics (env : Env) : Bool :=
  if ¬ shouldEnableOTel env then false
  else env.OTEL_METRICS_EXPORTER != "none"

/-- `shouldEnableLogs` from `config.go` lines 144-151. -/
def shouldEnableLogs (env : Env) : Bool :=
  if ¬ shouldEnableOTel env then false
  else env.OTEL_LOGS_EXPORTER != "none"

/-- The spec's description of `overall_enabled()` (spec §4.1), written as a
single flat disjunction, to be compared with the sequential code. -/
def specOverallEnabled (env : Env) : Bool :=
  if parseBoolTrue env.OTEL_SDK_DISABLED then false
  else decide (env.OTEL_EXPORTER_OTLP_ENDPOINT ≠ "" ∨
    env.OTEL_EXPORTER_OTLP_TRACES_ENDPOINT ≠ "" ∨
    env.OTEL_EXPORTER_OTLP_METRICS_ENDPOINT ≠ "" ∨
    env.OTEL_EXPORTER_OTLP_LOGS_ENDPOINT ≠ "" ∨
    (env.OTEL_TRACES_EXPORTER ≠ "" ∧ env.OTEL_TRACES_EXPORTER ≠ "none") ∨
    (env.OTEL_METRICS_EXPORTER ≠ "" ∧ env.OTEL_METRICS_EXPORTER ≠ "none") ∨
    (env.OTEL_LOGS_EXPORTER ≠ "" ∧ env.OTEL_LOGS_EXPORTER ≠ "none"))

/-- C1: for every environment, the sequential `shouldEnableOTel` computes
exactly the spec's formula: false under a boolean-true kill-switch,
otherwise true iff one of the four OTLP endpoint variables is non-empty
or one of the three per-signal exporter-name variables is set to a
non-empty value other than "none"; with none of those set it is false. -/
theorem shouldEnableOTel_matches_spec (env : Env) :
    shouldEnableOTel env = specOverallEnabled env := by
  unfold shouldEnableOTel specOverallEnabled
  by_cases h0 : parseBoolTrue env.OTEL_SDK_DISABLED = true
  · simp [h0]
  · simp only [h0]
    by_cases h1 : env.OTEL_EXPORTER_OTLP_ENDPOINT = "" <;>
      by_cases h2 : env.OTEL_EXPORTER_OTLP_TRACES_ENDPOINT = "" <;>
      by_cases h3 : env.OTEL_EXPORTER_OTLP_METRICS_ENDPOINT = "" <;>
      by_cases h4 : env.OTEL_EXPORTER_OTLP_LOGS_ENDPOINT = "" <;>
      simp [h1, h2, h3, h4]

/-- C2: each per-signal query is false whenever overall enablement is
false — in particular a truthy kill-switch forces all of them false —
and when overall enablement is true each signal is enabled exactly when
its exporter-name variable is not the literal "none" (unset or any other
value gives true). -/
theorem perSignal_enablement (env : Env) :
    (shouldEnableOTel env = false →
      shouldEnableLogs env = false ∧ shouldEnableTraces env = false ∧
        shouldEnableMetrics env = false) ∧
    (parseBoolTrue env.OTEL_SDK_DISABLED = true →
      shouldEnableOTel env = false ∧ shouldEnableLogs env = false ∧
        shouldEnableTraces env = false ∧ shouldEnableMetrics env = false) ∧
    (shouldEnableOTel env = true →
      shouldEnableLogs env = (env.OTEL_LOGS_EXPORTER != "none") ∧
      shouldEnableTraces env = (env.OTEL_TRACES_EXPORTER != "none") ∧
      shouldEnableMetrics env = (env.OTEL_METRICS_EXPORTER != "none")) := by
  refine ⟨fun hoff => ?_, fun hkill => ?_, fun hon => ?_⟩
  · simp [shouldEnableLogs, shouldEnableTraces, shouldEnableMetrics, hoff]
  · have hoff : shouldEnableOTel env = false := by simp [shouldEnableOTel, hkill]
    exact ⟨hoff, by
      simp [shouldEnableLogs, shouldEnableTraces, shouldEnableMetrics, hoff]⟩
  · simp [shouldEnableLogs, shouldEnableTraces, shouldEnableMetrics, hon]

/-- A concrete environment: kill-switch set to "true" while an OTLP
endpoint is also set. -/
def envKilled : Env :=
  { OTEL_SDK_DISABLED := "true", OTEL_EXPORTER_OTLP_ENDPOINT := "http://collector:4317" }

/-- Witness for C2 at a concrete environment: with the kill-switch set to
"true" and an OTLP endpoint set, every enablement query returns false. -/
theorem perSignal_enablement_witness :
    shouldEnableOTel envKilled = false ∧ shouldEnableLogs envKilled = false ∧
      shouldEnableTraces envKilled = false ∧ shouldEnableMetrics envKilled = false :=
  (perSignal_enablement envKilled).2.1 (by decide)

/-! ## Configuration object (`config.go` lines 9-81) -/

/-- `Options` from `config.go`. The port is a Go `int`, modelled as `Int`.
(The logger-backend fields referenced elsewhere in the repository are
owned by external collaborator packages and are not needed here.) -/
structure Options where
  ServiceName : String
  ServiceVersion : String
  BatchExport : Bool
  MetricsExporter : String
  PrometheusPort : Int
  PrometheusPath : String
  PrometheusServer : Bool
deriving DecidableEq, Repr

/-- `DefaultOptions` from `config.go` lines 44-52; fields the Go literal
omits get Go zero values (`""`, `false`). -/
def DefaultOptions : Options :=
  { ServiceName := "unknown", ServiceVersion := "unknown", BatchExport := false,
    MetricsExporter := "", PrometheusPort := 9090, PrometheusPath := "/metrics",
    PrometheusServer := false }

/-- Go `strconv.Atoi`: optional sign, one or more decimal digits, value
within the 64-bit signed range; anything else (including the empty
string) is an error, modelled as `none`. -/
def atoi (s : String) : Option Int :=
  let cs := s.toList
  let signDigits : Int × List Char :=
    match cs with
    | '+' :: rest => (1, rest)
    | '-' :: rest => (-1, rest)
    | _ => (1, cs)
  let sign := signDigits.1
  let ds := signDigits.2
  if ds = [] then none
  else if ds.all Char.isDigit then
    let n : Nat := ds.foldl (fun a c => a * 10 + (c.toNat - 48)) 0
    let v : Int := sign * (n : Int)
    if -(2 ^ 63) ≤ v ∧ v < 2 ^ 63 then some v else none
  else none

/-- First override of `Options.applyEnvVars` (`config.go` lines 62-64). -/
def Options.withServiceNameEnv (o : Options) (env : Env) : Options :=
  if env.OTEL_SERVICE_NAME ≠ "" then
    { o with ServiceName := env.OTEL_SERVICE_NAME } else o

/-- Second override of `Options.applyEnvVars` (`config.go` lines 67-69). -/
def Options.withServiceVersionEnv (o : Options) (env : Env) : Options :=
  if env.OTEL_SERVICE_VERSION ≠ "" then
    { o with ServiceVersion := env.OTEL_SERVICE_VERSION } else o

/-- Third override of `Options.applyEnvVars` (`config.go` lines 70-72). -/
def Options.withMetricsExporterEnv (o : Options) (env : Env) : Options :=
  if env.OTEL_METRICS_EXPORTER ≠ "" then
    { o with MetricsExporter := env.OTEL_METRICS_EXPORTER } else o

/-- Fourth override of `Options.applyEnvVars` (`config.go` lines 73-77):
the port changes only when the variable is non-empty and `strconv.Atoi`
succeeds. -/
def Options.withPrometheusPortEnv (o : Options) (env : Env) : Options :=
  if env.PROMETHEUS_PORT ≠ "" then
    match atoi env.PROMETHEUS_PORT with
    | some port => { o with PrometheusPort := port }
    | none => o
  else o

/-- Fifth override of `Options.applyEnvVars` (`config.go` lines 78-80). -/
def Options.withPrometheusPathEnv (o : Options) (env : Env) : Options :=
  if env.PROMETHEUS_PATH ≠ "" then
    { o with PrometheusPath := env.PROMETHEUS_PATH } else o

/-- `Options.applyEnvVars` from `config.go` lines 61-81: the five
overrides applied in source order. -/
def Options.applyEnvVars (o : Options) (env : Env) : Options :=
  ((((o.withServiceNameEnv env).withServiceVersionEnv env).withMetricsExporterEnv
    env).withPrometheusPortEnv env).withPrometheusPathEnv env

@[simp] theorem withServiceNameEnv_ServiceVersion (o : Options) (env : Env) :
    (o.withServiceNameEnv env).ServiceVersion = o.ServiceVersion := by
  unfold Options.withServiceNameEnv; split <;> rfl

@[simp] theorem withServiceNameEnv_MetricsExporter (o : Options) (env : Env) :
    (o.withServiceNameEnv env).MetricsExporter = o.MetricsExporter := by
  unfold Options.withServiceNameEnv; split <;> rfl

@[simp] theorem withServiceNameEnv_PrometheusPort (o : Options) (env : Env) :
    (o.withServiceNameEnv env).PrometheusPort = o.PrometheusPort := by
  unfold Options.withServiceNameEnv; split <;> rfl

@[simp] theorem withServiceNameEnv_PrometheusPath (o : Options) (env : Env) :
    (o.withServiceNameEnv env).PrometheusPath = o.PrometheusPath := by
  unfold Options.withServiceNameEnv; split <;> rfl

@[simp] theorem withServiceVersionEnv_ServiceName (o : Options) (env : Env) :
    (o.withServiceVersionEnv env).ServiceName = o.ServiceName := by
  unfold Options.withServiceVersionEnv; split <;> rfl

@[simp] theorem withServiceVersionEnv_MetricsExporter (o : Options) (env : Env) :
    (o.withServiceVersionEnv env).MetricsExporter = o.MetricsExporter := by
  unfold Options.withServiceVersionEnv; split <;> rfl

@[simp] theorem withServiceVersionEnv_PrometheusPort (o : Options) (env : Env) :
    (o.withServiceVersionEnv env).PrometheusPort = o.PrometheusPort := by
  unfold Options.withServiceVersionEnv; split <;> rfl

@[simp] theorem withServiceVersionEnv_PrometheusPath (o : Options) (env : Env) :
    (o.withServiceVersionEnv env).PrometheusPath = o.PrometheusPath := by
  unfold Options.withServiceVersionEnv; split <;> rfl

@[simp] theorem withMetricsExporterEnv_ServiceName (o : Options) (env : Env) :
    (o.withMetricsExporterEnv env).ServiceName = o.ServiceName := by
  unfold Options.withMetricsExporterEnv; split <;> rfl

@[simp] theorem withMetricsExporterEnv_ServiceVersion (o : Options) (env : Env) :
    (o.withMetricsExporterEnv env).ServiceVersion = o.ServiceVersion := by
  unfold Options.withMetricsExporterEnv; split <;> rfl

@[simp] theorem withMetricsExporterEnv_PrometheusPort (o : Options) (env : Env) :
    (o.withMetricsExporterEnv env).PrometheusPort = o.PrometheusPort := by
  unfold Options.withMetricsExporterEnv; split <;> rfl

@[simp] theorem withMetricsExporterEnv_PrometheusPath (o : Options) (env : Env) :
    (o.withMetricsExporterEnv env).PrometheusPath = o.PrometheusPath := by
  unfold Options.withMetricsExporterEnv; split <;> rfl

@[simp] theorem withPrometheusPortEnv_ServiceName (o : Options) (env : Env) :
    (o.withPrometheusPortEnv env).ServiceName = o.ServiceName := by
  unfold Options.withPrometheusPortEnv
  split
  · split <;> rfl
  · rfl

@[simp] theorem withPrometheusPortEnv_ServiceVersion (o : Options) (env : Env) :
    (o.withPrometheusPortEnv env).ServiceVersion = o.ServiceVersion := by
  unfold Options.withPrometheusPortEnv
  split
  · split <;> rfl
  · rfl

@[simp] theorem withPrometheusPortEnv_MetricsExporter (o : Options) (env : Env) :
    (o.withPrometheusPortEnv env).MetricsExporter = o.MetricsExporter := by
  unfold Options.withPrometheusPortEnv
  split
  · split <;> rfl
  · rfl

@[simp] theorem withPrometheusPortEnv_PrometheusPath (o : Options) (env : Env) :
    (o.withPrometheusPortEnv env).PrometheusPath = o.PrometheusPath := by
  unfold Options.withPrometheusPortEnv
  split
  · split <;> rfl
  · rfl

@[simp] theorem withPrometheusPathEnv_ServiceName (o : Options) (env : Env) :
    (o.withPrometheusPathEnv env).ServiceName = o.ServiceName := by
  unfold Options.withPrometheusPathEnv; split <;> rfl

@[simp] theorem withPrometheusPathEnv_ServiceVersion (o : Options) (env : Env) :
    (o.withPrometheusPathEnv env).ServiceVersion = o.ServiceVersion := by
  unfold Options.withPrometheusPathEnv; split <;> rfl

@[simp] theorem withPrometheusPathEnv_MetricsExporter (o : Options) (env : Env) :
    (o.withPrometheusPathEnv env).MetricsExporter = o.MetricsExporter := by
  unfold Options.withPrometheusPathEnv; split <;> rfl

@[simp] theorem withPrometheusPathEnv_PrometheusPort (o : Options) (env : Env) :
    (o.withPrometheusPathEnv env).PrometheusPort = o.PrometheusPort := by
  unfold Options.withPrometheusPathEnv; split <;> rfl

theorem withServiceNameEnv_of_empty (o : Options) (env : Env)
    (h : env.OTEL_SERVICE_NAME = "") : o.withServiceNameEnv env = o := by
  simp [Options.withServiceNameEnv, h]

theorem withServiceNameEnv_of_set (o : Options) (env : Env)
    (h : env.OTEL_SERVICE_NAME ≠ "") :
    (o.withServiceNameEnv env).ServiceName = env.OTEL_SERVICE_NAME := by
  simp [Options.withServiceNameEnv, h]

theorem withServiceVersionEnv_of_empty (o : Options) (env : Env)
    (h : env.OTEL_SERVICE_VERSION = "") : o.withServiceVersionEnv env = o := by
  simp [Options.withServiceVersionEnv, h]

theorem withServiceVersionEnv_of_set (o : Options) (env : Env)
    (h : env.OTEL_SERVICE_VERSION ≠ "") :
    (o.withServiceVersionEnv env).ServiceVersion = env.OTEL_SERVICE_VERSION := by
  simp [Options.withServiceVersionEnv, h]

theorem withMetricsExporterEnv_of_empty (o : Options) (env : Env)
    (h : env.OTEL_METRICS_EXPORTER = "") : o.withMetricsExporterEnv env = o := by
  simp [Options.withMetricsExporterEnv, h]

theorem withMetricsExporterEnv_of_set (o : Options) (env : Env)
    (h : env.OTEL_METRICS_EXPORTER ≠ "") :
    (o.withMetricsExporterEnv env).MetricsExporter = env.OTEL_METRICS_EXPORTER := by
  simp [Options.withMetricsExporterEnv, h]

theorem withPrometheusPortEnv_of_atoi_none (o : Options) (env : Env)
    (h : atoi env.PROMETHEUS_PORT = none) :
    (o.withPrometheusPortEnv env).PrometheusPort = o.PrometheusPort := by
  unfold Options.withPrometheusPortEnv
  split
  · rw [h]
  · rfl

theorem withPrometheusPortEnv_of_atoi_some (o : Options) (env : Env) (n : Int)
    (h : atoi env.PROMETHEUS_PORT = some n) :
    (o.withPrometheusPortEnv env).PrometheusPort = n := by
  have hne : env.PROMETHEUS_PORT ≠ "" := by
    intro he
    rw [he] at h
    simp [atoi] at h
  unfold Options.withPrometheusPortEnv
  rw [if_pos hne, h]

theorem withPrometheusPathEnv_of_empty (o : Options) (env : Env)
    (h : env.PROMETHEUS_PATH = "") : o.withPrometheusPathEnv env = o := by
  simp [Options.withPrometheusPathEnv, h]

theorem withPrometheusPathEnv_of_set (o : Options) (env : Env)
    (h : env.PROMETHEUS_PATH ≠ "") :
    (o.withPrometheusPathEnv env).PrometheusPath = env.PROMETHEUS_PATH := by
  simp [Options.withPrometheusPathEnv, h]

/-- C6: `applyEnvVars` never fails on a malformed `PROMETHEUS_PORT`: when
the value does not parse as an integer the prior port is kept unchanged
(not reset to the default), a valid integer does override it, and for
every overridden field an empty-string variable is treated as unset and
never replaces the existing value. -/
theorem applyEnvVars_port_and_empty (o : Options) (env : Env) :
    (atoi env.PROMETHEUS_PORT = none →
      (o.applyEnvVars env).PrometheusPort = o.PrometheusPort) ∧
    (∀ n : Int, atoi env.PROMETHEUS_PORT = some n →
      (o.applyEnvVars env).PrometheusPort = n) ∧
    (env.OTEL_SERVICE_NAME = "" →
      (o.applyEnvVars env).ServiceName = o.ServiceName) ∧
    (env.OTEL_SERVICE_VERSION = "" →
      (o.applyEnvVars env).ServiceVersion = o.ServiceVersion) ∧
    (env.OTEL_METRICS_EXPORTER = "" →
      (o.applyEnvVars env).MetricsExporter = o.MetricsExporter) ∧
    (env.PROMETHEUS_PORT = "" →
      (o.applyEnvVars env).PrometheusPort = o.PrometheusPort) ∧
    (env.PROMETHEUS_PATH = "" →
      (o.applyEnvVars env).PrometheusPath = o.PrometheusPath) := by
  refine ⟨fun hnone => ?_, fun n hsome => ?_, fun h => ?_, fun h => ?_,
    fun h => ?_, fun h => ?_, fun h => ?_⟩
  · simp [Options.applyEnvVars, withPrometheusPortEnv_of_atoi_none _ _ hnone]
  · simp [Options.applyEnvVars, withPrometheusPortEnv_of_atoi_some _ _ _ hsome]
  · simp [Options.applyEnvVars, withServiceNameEnv_of_empty _ _ h]
  · simp [Options.applyEnvVars, withServiceVersionEnv_of_empty _ _ h]
  · simp [Options.applyEnvVars, withMetricsExporterEnv_of_empty _ _ h]
  · have : atoi env.PROMETHEUS_PORT = none := by rw [h]; simp [atoi]
    simp [Options.applyEnvVars, withPrometheusPortEnv_of_atoi_none _ _ this]
  · simp [Options.applyEnvVars, withPrometheusPathEnv_of_empty _ _ h]

/-- Witness for C6: a malformed port value "not-a-number" leaves the
default port 9090 unchanged, a valid "8080" overrides it, and an
empty service-name variable keeps the caller's name. -/
theorem applyEnvVars_port_and_empty_witness :
    (DefaultOptions.applyEnvVars { PROMETHEUS_PORT := "not-a-number" }).PrometheusPort = 9090 ∧
    (DefaultOptions.applyEnvVars { PROMETHEUS_PORT := "8080" }).PrometheusPort = 8080 ∧
    (DefaultOptions.applyEnvVars { PROMETHEUS_PORT := "8080" }).ServiceName = "unknown" := by
  refine ⟨(applyEnvVars_port_and_empty DefaultOptions _).1 (by decide),
    (applyEnvVars_port_and_empty DefaultOptions _).2.1 8080 (by decide),
    (applyEnvVars_port_and_empty DefaultOptions _).2.2.1 (by decide)⟩

/-! ## Provider assembly (`telemetry.go` lines 155-335, `providers.go`)

External exporter constructors (`otlploggrpc.New`, `otlptracegrpc.New`,
`otlpmetricgrpc.New`, `otelprom.New`) are owned by collaborator SDK
libraries; the model treats their construction as succeeding, which is
the path on which the assembly logic itself is exercised. -/

/-- A metric reader, one per entry of the exporter selector
(`telemetry.go` lines 226-277). A Prometheus reader carries the id of
the HTTP handler created alongside it (handlers are numbered in creation
order). -/
inductive Reader
  | prom (handlerId : Nat)
  | otlp
deriving DecidableEq, Repr

/-- The mutable state of the exporter loop in `newWithOptions`
(`telemetry.go` lines 226-278): the readers accumulated so far, the
first Prometheus handler (`promHandler`), the built-in server if one was
started (`promServer`, holding its port), a count of background listener
launches (each `go func` at lines 261-265), and the id for the next
Prometheus handler. -/
structure MState where
  readers : List Reader
  promHandler : Option Nat
  promServer : Option Int
  serversLaunched : Nat
  nextHandlerId : Nat
deriving DecidableEq, Repr

/-- State at entry to the exporter loop: all `var` declarations are nil. -/
def initMetricsState : MState :=
  { readers := [], promHandler := none, promServer := none,
    serversLaunched := 0, nextHandlerId := 0 }

/-- Go `strings.Split(s, ",")` for the single-character separator the
code uses: substrings between commas, empties kept, `[""]` for the empty
string. (Defined by structural recursion over the character list so
that concrete selectors evaluate.) -/
def splitCommaAux : List Char → List Char → List String
  | [], acc => [String.mk acc.reverse]
  | c :: rest, acc =>
    if c = ',' then String.mk acc.reverse :: splitCommaAux rest []
    else splitCommaAux rest (c :: acc)

/-- `strings.Split(s, ",")`. -/
def splitOnComma (s : String) : List String :=
  splitCommaAux s.toList []

/-- Go `strings.TrimSpace` (whitespace class restricted to the common
space, tab, CR, LF characters, which covers every selector entry the
claims mention). -/
def trimSpace (s : String) : String :=
  String.mk
    (((s.toList.dropWhile Char.isWhitespace).reverse.dropWhile
      Char.isWhitespace).reverse)

/-- One iteration of the exporter loop (`telemetry.go` lines 228-277):
trim the entry, skip `""`/`"none"`, build a Prometheus reader (keeping
only the first handler, starting the built-in server at most once and
only when requested) or an OTLP reader, and fail on anything else with
the source's error message. -/
def processExporterEntry (opts : Options) (st : MState) (entry : String) :
    Except String MState :=
  let exp := trimSpace entry
  if exp = "" ∨ exp = "none" then .ok st
  else if exp = "prometheus" then
    let id := st.nextHandlerId
    let readers := st.readers ++ [Reader.prom id]
    let handler := if st.promHandler = none then some id else st.promHandler
    if opts.PrometheusServer ∧ st.promServer = none then
      .ok { readers := readers, promHandler := handler,
            promServer := some opts.PrometheusPort,
            serversLaunched := st.serversLaunched + 1, nextHandlerId := id + 1 }
    else
      .ok { readers := readers, promHandler := handler,
            promServer := st.promServer,
            serversLaunched := st.serversLaunched, nextHandlerId := id + 1 }
  else if exp = "otlp" then
    .ok { st with readers := st.readers ++ [Reader.otlp] }
  else
    .error ("unsupported metrics exporter: " ++ exp ++
      " (supported: otlp, prometheus, none)")

/-- The exporter selector resolution at `telemetry.go` lines 207-210:
the configuration field, else the environment variable. -/
def resolveMetricsExporter (opts : Options) (env : Env) : String :=
  if opts.MetricsExporter ≠ "" then opts.MetricsExporter
  else env.OTEL_METRICS_EXPORTER

/-- The enablement decision at `telemetry.go` lines 212-221: explicitly
configured exporters win; otherwise environment auto-detection enables
metrics with the default `"otlp"` selector. Returns (enabled, selector). -/
def metricsEnableDecision (opts : Options) (env : Env) : Bool × String :=
  let exporter := resolveMetricsExporter opts env
  if exporter ≠ "" ∧ exporter ≠ "none" then (true, exporter)
  else if shouldEnableMetrics env then (true, "otlp")
  else (false, exporter)

/-- The metrics-related outputs of `newWithOptions`: the meter provider
(present iff at least one reader was built, `telemetry.go` lines
281-288), the exposed Prometheus handler, the owned server, and the
count of listener launches. -/
structure MetricsAssembly where
  mp : Option (List Reader)
  promHandler : Option Nat
  promServer : Option Int
  serversLaunched : Nat
deriving DecidableEq, Repr

/-- The `for _, exp := range exportersList` loop of `newWithOptions`
(`telemetry.go` lines 228-278): thread the state through the entries,
returning early on the first error exactly as the Go loop does. -/
def runExporterLoop (opts : Options) : MState → List String → Except String MState
  | st, [] => .ok st
  | st, e :: es =>
    match processExporterEntry opts st e with
    | .error msg => .error msg
    | .ok st1 => runExporterLoop opts st1 es

/-- The metrics section of `newWithOptions` (`telemetry.go` lines
205-289): decide enablement, split the selector on commas, run the
exporter loop, and build the meter provider only when readers exist. -/
def buildMetrics (opts : Options) (env : Env) : Except String MetricsAssembly :=
  let d := metricsEnableDecision opts env
  if d.1 then
    match runExporterLoop opts initMetricsState (splitOnComma d.2) with
    | .error e => .error e
    | .ok st =>
      .ok { mp := if st.readers.length > 0 then some st.readers else none,
            promHandler := st.promHandler, promServer := st.promServer,
            serversLaunched := st.serversLaunched }
  else
    .ok { mp := none, promHandler := none, promServer := none, serversLaunched := 0 }

/-- The OTel resource from `newResource` (`providers.go` lines 143-152):
service name and version from the options. (The host name comes from
`os.Hostname`, an external lookup whose failure is tolerated; it plays
no role in any claim and is omitted.) -/
structure Resource where
  serviceName : String
  serviceVersion : String
deriving DecidableEq, Repr

/-- A tracer handle: real (derived from the tracer provider) or no-op
(`telemetry.go` lines 198-203). In Go this is an interface value that
could in principle be nil; the model keeps the nilable type `Option`
outside. -/
structure Tracer where
  name : String
  isNoop : Bool
deriving DecidableEq, Repr

/-- A started span. Its identifying context is valid only for a real
tracer. -/
structure Span where
  name : String
  hasValidContext : Bool
deriving DecidableEq, Repr

/-- `tracer.Start(ctx, name)`: total on any non-nil tracer. -/
def Tracer.start (tr : Tracer) (spanName : String) : Span :=
  { name := spanName, hasValidContext := !tr.isNoop }

/-- `newLoggerProvider` (`providers.go` lines 25-51): nil when logs are
disabled, otherwise a provider (exporter construction modelled as
succeeding). -/
def newLoggerProvider (env : Env) : Option Unit :=
  if shouldEnableLogs env then some () else none

/-- `newTracerProvider` (`providers.go` lines 112-140): nil when traces
are disabled. -/
def newTracerProvider (env : Env) : Option Unit :=
  if shouldEnableTraces env then some () else none

/-- The `Telemetry` struct (`telemetry.go` lines 24-37) plus the
resource it was assembled with. `tracer : Option Tracer` models the Go
interface field, which is nil until assigned. -/
structure Telemetry where
  cfg : Options
  res : Option Resource
  lp : Option Unit
  mp : Option (List Reader)
  tp : Option Unit
  tracer : Option Tracer
  promServer : Option Int
  promHandler : Option Nat
deriving DecidableEq, Repr

/-- `newWithOptions` (`telemetry.go` lines 170-335): resource when OTel
is enabled or a metrics exporter is set; logs and traces providers by
enablement; tracer real-or-noop; then the metrics section. (The logging
backend resolution at lines 291-323 concerns collaborator logger
packages and no claim here.) -/
def newWithOptions (opts : Options) (env : Env) : Except String Telemetry :=
  let metricsExporterSet :=
    opts.MetricsExporter ≠ "" ∨ env.OTEL_METRICS_EXPORTER ≠ ""
  let res : Option Resource :=
    if shouldEnableOTel env ∨ metricsExporterSet then
      some { serviceName := opts.ServiceName, serviceVersion := opts.ServiceVersion }
    else none
  let lp := newLoggerProvider env
  let tp := newTracerProvider env
  let tracer : Option Tracer :=
    match tp with
    | some _ => some { name := opts.ServiceName, isNoop := false }
    | none => some { name := opts.ServiceName, isNoop := true }
  match buildMetrics opts env with
  | .error e => .error e
  | .ok m =>
    .ok { cfg := opts, res := res, lp := lp, mp := m.mp, tp := tp,
          tracer := tracer, promServer := m.promServer,
          promHandler := m.promHandler }

/-- `Telemetry.StartSpan` (`telemetry.go` lines 137-139): calls
`t.tracer.Start`; a nil tracer field would nil-panic, modelled as
`none`. -/
def Telemetry.startSpan (t : Telemetry) (spanName : String) : Option Span :=
  t.tracer.map (fun tr => tr.start spanName)

/-- `New` (`telemetry.go` lines 157-167). The Go function receives a
pointer to the caller-owned `Options` and calls `applyEnvVars` on that
pointer before assembling, so the caller's struct is mutated in place.
The first component of the result is the contents of the caller-owned
struct after `New` returns (`none` when the caller passed nil and `New`
worked on a fresh default struct instead). -/
def New (callerOpts : Option Options) (env : Env) :
    Option Options × Except String Telemetry :=
  match callerOpts with
  | none =>
    let o := DefaultOptions.applyEnvVars env
    (none, newWithOptions o env)
  | some o =>
    let o2 := o.applyEnvVars env
    (some o2, newWithOptions o2 env)

/-- Listener invariant of the exporter loop: either no built-in server
has been started and no launch happened, or exactly one launch happened,
the server field is set, and the configuration requested the built-in
server. -/
def ServerInv (opts : Options) (st : MState) : Prop :=
  (st.promServer = none ∧ st.serversLaunched = 0) ∨
  (st.promServer ≠ none ∧ st.serversLaunched = 1 ∧ opts.PrometheusServer = true)

theorem processExporterEntry_serverInv {opts : Options} {st : MState}
    {entry : String} {st' : MState}
    (h : processExporterEntry opts st entry = .ok st')
    (hinv : ServerInv opts st) : ServerInv opts st' := by
  by_cases hskip : trimSpace entry = "" ∨ trimSpace entry = "none"
  · simp only [processExporterEntry, if_pos hskip, Except.ok.injEq] at h
    exact h ▸ hinv
  · by_cases hprom : trimSpace entry = "prometheus"
    · by_cases hlaunch : opts.PrometheusServer ∧ st.promServer = none
      · simp only [processExporterEntry, if_neg hskip, if_pos hprom,
          if_pos hlaunch, Except.ok.injEq] at h
        subst h
        rcases hinv with ⟨_, hcnt⟩ | ⟨hsrv, _, _⟩
        · exact Or.inr ⟨by simp, by simp [hcnt], hlaunch.1⟩
        · exact absurd hlaunch.2 hsrv
      · simp only [processExporterEntry, if_neg hskip, if_pos hprom,
          if_neg hlaunch, Except.ok.injEq] at h
        subst h
        rcases hinv with ⟨hsrv, hcnt⟩ | ⟨hsrv, hcnt, hreq⟩
        · exact Or.inl ⟨hsrv, hcnt⟩
        · exact Or.inr ⟨hsrv, hcnt, hreq⟩
    · by_cases hotlp : trimSpace entry = "otlp"
      · simp only [processExporterEntry, if_neg hskip, if_neg hprom,
          if_pos hotlp, Except.ok.injEq] at h
        subst h
        rcases hinv with ⟨hsrv, hcnt⟩ | ⟨hsrv, hcnt, hreq⟩
        · exact Or.inl ⟨hsrv, hcnt⟩
        · exact Or.inr ⟨hsrv, hcnt, hreq⟩
      · simp only [processExporterEntry, if_neg hskip, if_neg hprom,
          if_neg hotlp] at h
        cases h

theorem runExporterLoop_serverInv (opts : Options) :
    ∀ (entries : List String) (st st' : MState), ServerInv opts st →
      runExporterLoop opts st entries = .ok st' →
      ServerInv opts st'
  | [], st, st', hinv, h => by
    unfold runExporterLoop at h
    cases h
    exact hinv
  | e :: es, st, st', hinv, h => by
    unfold runExporterLoop at h
    cases hfe : processExporterEntry opts st e with
    | error msg => rw [hfe] at h; cases h
    | ok st1 =>
      rw [hfe] at h
      exact runExporterLoop_serverInv opts es st1 st'
        (processExporterEntry_serverInv hfe hinv) h

/-- C3: a metrics selector resolving to "prometheus,otlp" yields exactly
two readers and a present Prometheus handler; a selector resolving to
"" or "none" with no environment fallback yields no meter provider and
no error; duplicate "prometheus" entries expose only the first handler
(handler id 0 of the two readers created); and every successful assembly
launches at most one background listener, and only when the
configuration requests the built-in server. -/
theorem metrics_selector_assembly (opts : Options) (env : Env) :
    (resolveMetricsExporter opts env = "prometheus,otlp" →
      (buildMetrics opts env).map
        (fun r => (r.mp.map List.length, r.promHandler.isSome)) =
        .ok (some 2, true)) ∧
    ((resolveMetricsExporter opts env = "" ∨
        resolveMetricsExporter opts env = "none") →
      shouldEnableMetrics env = false →
      buildMetrics opts env =
        .ok { mp := none, promHandler := none, promServer := none,
              serversLaunched := 0 }) ∧
    (resolveMetricsExporter opts env = "prometheus,prometheus" →
      (buildMetrics opts env).map (fun r => (r.mp, r.promHandler)) =
        .ok (some [Reader.prom 0, Reader.prom 1], some 0)) ∧
    (∀ r, buildMetrics opts env = .ok r →
      r.serversLaunched ≤ 1 ∧
      (r.serversLaunched ≠ 0 → opts.PrometheusServer = true)) := by
  refine ⟨fun h => ?_, fun h hm => ?_, fun h => ?_, fun r hr => ?_⟩
  · unfold buildMetrics metricsEnableDecision
    rw [h]
    obtain ⟨sn, sv, be, me, pport, ppath, pserver⟩ := opts
    cases pserver <;> rfl
  · rcases h with h | h <;>
      (unfold buildMetrics metricsEnableDecision; rw [h]; simp [hm])
  · unfold buildMetrics metricsEnableDecision
    rw [h]
    obtain ⟨sn, sv, be, me, pport, ppath, pserver⟩ := opts
    cases pserver <;> rfl
  · have hinit : ServerInv opts initMetricsState := Or.inl ⟨rfl, rfl⟩
    simp only [buildMetrics] at hr
    split at hr
    · cases hf : runExporterLoop opts initMetricsState
        (splitOnComma (metricsEnableDecision opts env).2) with
      | error msg => rw [hf] at hr; cases hr
      | ok st =>
        rw [hf] at hr
        cases hr
        rcases runExporterLoop_serverInv opts _ _ _ hinit hf with
          ⟨_, hcnt⟩ | ⟨_, hcnt, hreq⟩
        · exact ⟨by simp [hcnt], fun hne => absurd hcnt hne⟩
        · exact ⟨by simp [hcnt], fun _ => hreq⟩
    · cases hr
      exact ⟨by simp, fun hne => absurd rfl hne⟩

/-- Options requesting both Prometheus exporters-with-server and OTLP. -/
def optsPromOtlp : Options :=
  { DefaultOptions with MetricsExporter := "prometheus,otlp", PrometheusServer := true }

/-- The empty environment: no variable set. -/
def envEmpty : Env := {}

/-- Witness for C3 at concrete inputs: with selector "prometheus,otlp"
(and an empty environment) the assembly yields two readers, a handler,
and at most one requested listener launch; with the default empty
selector it yields no meter provider and no error. -/
theorem metrics_selector_assembly_witness :
    ((buildMetrics optsPromOtlp envEmpty).map
      (fun r => (r.mp.map List.length, r.promHandler.isSome)) =
      .ok (some 2, true)) ∧
    (buildMetrics DefaultOptions envEmpty =
      .ok { mp := none, promHandler := none, promServer := none,
            serversLaunched := 0 }) ∧
    (∀ r, buildMetrics optsPromOtlp envEmpty = .ok r →
      r.serversLaunched ≤ 1 ∧
      (r.serversLaunched ≠ 0 → optsPromOtlp.PrometheusServer = true)) :=
  ⟨(metrics_selector_assembly optsPromOtlp envEmpty).1 (by decide),
   (metrics_selector_assembly DefaultOptions envEmpty).2.1 (Or.inl (by decide))
     (by decide),
   (metrics_selector_assembly optsPromOtlp envEmpty).2.2.2⟩

/-- The claim's notion of an explicit metrics request: the resolved
selector (configuration field first, environment variable as fallback)
names an exporter, i.e. is non-empty and not "none". -/
def metricsExplicitlyRequested (opts : Options) (env : Env) : Prop :=
  resolveMetricsExporter opts env ≠ "" ∧ resolveMetricsExporter opts env ≠ "none"

/-- C5: whenever a metrics exporter is explicitly requested via the
configuration field or `OTEL_METRICS_EXPORTER`, the assembly enables
metrics and builds the resource descriptor — with no requirement that
`shouldEnableOTel` hold, so explicit metrics configuration bypasses the
master enablement check. -/
theorem explicit_metrics_bypasses_master (opts : Options) (env : Env)
    (h : metricsExplicitlyRequested opts env) :
    (metricsEnableDecision opts env).1 = true ∧
    (∀ t, newWithOptions opts env = .ok t → t.res.isSome = true) := by
  have hset : opts.MetricsExporter ≠ "" ∨ env.OTEL_METRICS_EXPORTER ≠ "" := by
    by_cases hm : opts.MetricsExporter = ""
    · refine Or.inr ?_
      have hres : resolveMetricsExporter opts env = env.OTEL_METRICS_EXPORTER := by
        simp [resolveMetricsExporter, hm]
      exact hres ▸ h.1
    · exact Or.inl hm
  obtain ⟨h1, h2⟩ := h
  constructor
  · simp only [metricsEnableDecision]
    rw [if_pos ⟨h1, h2⟩]
  · intro t ht
    simp only [newWithOptions] at ht
    cases hb : buildMetrics opts env with
    | error e => rw [hb] at ht; cases ht
    | ok m =>
      rw [hb] at ht
      cases ht
      simp [if_pos (Or.inr hset)]

/-- A configuration requesting Prometheus metrics through the
configuration field, with nothing set in the environment. -/
def optsMetricsOnly : Options :=
  { DefaultOptions with MetricsExporter := "prometheus" }

/-- Witness for C5 at a concrete input: with `MetricsExporter`
"prometheus" in the options and an empty environment, `shouldEnableOTel`
is false, yet metrics are enabled and the resource is built. -/
theorem explicit_metrics_bypasses_master_witness :
    shouldEnableOTel envEmpty = false ∧
    (metricsEnableDecision optsMetricsOnly envEmpty).1 = true ∧
    (∀ t, newWithOptions optsMetricsOnly envEmpty = .ok t →
      t.res.isSome = true) :=
  ⟨by decide,
   (explicit_metrics_bypasses_master optsMetricsOnly envEmpty
     ⟨by decide, by decide⟩).1,
   (explicit_metrics_bypasses_master optsMetricsOnly envEmpty
     ⟨by decide, by decide⟩).2⟩

/-- C8: every successfully assembled `Telemetry` carries a non-nil
tracer — a no-op one when the traces provider is absent — so
`StartSpan` always returns a span and never nil-dereferences. -/
theorem startSpan_never_nil (opts : Options) (env : Env) (t : Telemetry)
    (h : newWithOptions opts env = .ok t) :
    t.tracer.isSome = true ∧
    (∀ s : String, (t.startSpan s).isSome = true) ∧
    (t.tp = none → t.tracer = some { name := opts.ServiceName, isNoop := true }) := by
  simp only [newWithOptions] at h
  cases hb : buildMetrics opts env with
  | error e => rw [hb] at h; cases h
  | ok m =>
    rw [hb] at h
    cases h
    cases hnt : newTracerProvider env <;>
      simp [Telemetry.startSpan, hnt]

/-- Witness for C8: with nothing configured (tracing disabled), the
constructed instance has a tracer and `startSpan` yields a span. -/
theorem startSpan_never_nil_witness :
    ∃ t, newWithOptions DefaultOptions envEmpty = .ok t ∧
      t.tracer.isSome = true ∧ (t.startSpan "operation").isSome = true := by
  refine ⟨_, rfl, ?_, ?_⟩
  · exact (startSpan_never_nil DefaultOptions envEmpty _ rfl).1
  · exact (startSpan_never_nil DefaultOptions envEmpty _ rfl).2.1 "operation"

/-- C10: `New` works on the caller-owned `Options` struct itself: after
`New (some o)` returns, the caller's struct holds `o.applyEnvVars env` —
every set environment variable has overwritten the corresponding field
the caller originally set — and assembly ran on exactly that overridden
struct. -/
theorem New_mutates_caller_options (o : Options) (env : Env) :
    (New (some o) env).1 = some (o.applyEnvVars env) ∧
    (New (some o) env).2 = newWithOptions (o.applyEnvVars env) env ∧
    (env.OTEL_SERVICE_NAME ≠ "" →
      (New (some o) env).1.map Options.ServiceName = some env.OTEL_SERVICE_NAME) ∧
    (env.OTEL_SERVICE_VERSION ≠ "" →
      (New (some o) env).1.map Options.ServiceVersion = some env.OTEL_SERVICE_VERSION) ∧
    (env.OTEL_METRICS_EXPORTER ≠ "" →
      (New (some o) env).1.map Options.MetricsExporter = some env.OTEL_METRICS_EXPORTER) ∧
    (∀ n : Int, atoi env.PROMETHEUS_PORT = some n →
      (New (some o) env).1.map Options.PrometheusPort = some n) ∧
    (env.PROMETHEUS_PATH ≠ "" →
      (New (some o) env).1.map Options.PrometheusPath = some env.PROMETHEUS_PATH) := by
  refine ⟨rfl, rfl, fun h => ?_, fun h => ?_, fun h => ?_, fun n h => ?_, fun h => ?_⟩
  · simp [New, Options.applyEnvVars, withServiceNameEnv_of_set _ _ h]
  · simp [New, Options.applyEnvVars, withServiceVersionEnv_of_set _ _ h]
  · simp [New, Options.applyEnvVars, withMetricsExporterEnv_of_set _ _ h]
  · simp [New, Options.applyEnvVars, withPrometheusPortEnv_of_atoi_some _ _ _ h]
  · simp [New, Options.applyEnvVars, withPrometheusPathEnv_of_set _ _ h]

/-- A caller-owned configuration with explicit values. -/
def optsCaller : Options :=
  { DefaultOptions with ServiceName := "caller-name", PrometheusPort := 1234 }

/-- Environment overriding the service name and the port. -/
def envOverride : Env :=
  { OTEL_SERVICE_NAME := "env-name", PROMETHEUS_PORT := "4321" }

/-- Witness for C10: after `New`, the caller's struct shows the
environment's service name and port, not the values the caller set. -/
theorem New_mutates_caller_options_witness :
    (New (some optsCaller) envOverride).1.map Options.ServiceName = some "env-name" ∧
    (New (some optsCaller) envOverride).1.map Options.PrometheusPort = some 4321 :=
  ⟨(New_mutates_caller_options optsCaller envOverride).2.2.1 (by decide),
   (New_mutates_caller_options optsCaller envOverride).2.2.2.2.2.1 4321 (by decide)⟩

/-! ## Shutdown (`telemetry.go` lines 41-106)

`Shutdown` branches only on which handles are non-nil and on which of
the seven teardown calls fail, so a shutdown scenario is captured by
eleven booleans. The combined error built by the chain of `fmt.Errorf`
wrappings is modelled as the list of failed steps in wrapping order
(`none`/nil when the list is empty). -/

/-- One shutdown scenario: which handles are present and which calls
fail. The flush/stop outcomes of the underlying SDK providers are
external inputs. -/
structure ShutdownCtx where
  promServerPresent : Bool
  lpPresent : Bool
  mpPresent : Bool
  tpPresent : Bool
  serverStopFails : Bool
  lpFlushFails : Bool
  lpStopFails : Bool
  mpFlushFails : Bool
  mpStopFails : Bool
  tpFlushFails : Bool
  tpStopFails : Bool
deriving DecidableEq, Repr

/-- The seven teardown calls `Shutdown` can make, in source order:
`promServer.Shutdown`, then flush/stop of the logs, metrics and traces
providers. -/
inductive SAction
  | serverStop | lpFlush | lpStop | mpFlush | mpStop | tpFlush | tpStop
deriving DecidableEq, Repr

/-- `Telemetry.Shutdown` (`telemetry.go` lines 41-106), instrumented:
returns the calls attempted in order and the failures accumulated into
the combined error, mirroring the guard structure of the source (each
block runs only when its handle is non-nil; within a provider block the
stop call is made unconditionally after the flush call). -/
def shutdownRun (c : ShutdownCtx) : List SAction × List SAction :=
  let st : List SAction × List SAction := ([], [])
  let st := if c.promServerPresent then
      (st.1 ++ [SAction.serverStop],
       if c.serverStopFails then st.2 ++ [SAction.serverStop] else st.2)
    else st
  let st := if c.lpPresent then
      let st := (st.1 ++ [SAction.lpFlush],
        if c.lpFlushFails then st.2 ++ [SAction.lpFlush] else st.2)
      (st.1 ++ [SAction.lpStop],
       if c.lpStopFails then st.2 ++ [SAction.lpStop] else st.2)
    else st
  let st := if c.mpPresent then
      let st := (st.1 ++ [SAction.mpFlush],
        if c.mpFlushFails then st.2 ++ [SAction.mpFlush] else st.2)
      (st.1 ++ [SAction.mpStop],
       if c.mpStopFails then st.2 ++ [SAction.mpStop] else st.2)
    else st
  let st := if c.tpPresent then
      let st := (st.1 ++ [SAction.tpFlush],
        if c.tpFlushFails then st.2 ++ [SAction.tpFlush] else st.2)
      (st.1 ++ [SAction.tpStop],
       if c.tpStopFails then st.2 ++ [SAction.tpStop] else st.2)
    else st
  st

/-- The value `Shutdown` returns: nil when no step failed, otherwise the
combined error holding every failure. -/
def shutdownResult (c : ShutdownCtx) : Option (List SAction) :=
  if (shutdownRun c).2 = [] then none else some (shutdownRun c).2

/-- The teardown order the spec prescribes (§4.6): listener first, then
for each present provider flush followed by stop, logs then metrics then
traces. -/
def specShutdownOrder (c : ShutdownCtx) : List SAction :=
  (if c.promServerPresent then [SAction.serverStop] else []) ++
  (if c.lpPresent then [SAction.lpFlush, SAction.lpStop] else []) ++
  (if c.mpPresent then [SAction.mpFlush, SAction.mpStop] else []) ++
  (if c.tpPresent then [SAction.tpFlush, SAction.tpStop] else [])

/-- Which calls fail in a given scenario. -/
def failsOf (c : ShutdownCtx) : SAction → Bool
  | .serverStop => c.serverStopFails
  | .lpFlush => c.lpFlushFails
  | .lpStop => c.lpStopFails
  | .mpFlush => c.mpFlushFails
  | .mpStop => c.mpStopFails
  | .tpFlush => c.tpFlushFails
  | .tpStop => c.tpStopFails

/-- C4: in every scenario, `Shutdown` attempts exactly the spec's
sequence — listener stop first, then flush-then-stop per present
provider — so a flush failure never skips the following stop attempt
(each provider's stop call is attempted whenever that provider is
present, whatever else fails); the combined error accumulates exactly
the failed steps, and it is nil precisely when no step failed. -/
theorem shutdown_order_and_accumulation (c : ShutdownCtx) :
    shutdownRun c =
      (specShutdownOrder c, (specShutdownOrder c).filter (failsOf c)) ∧
    (c.lpPresent = true → SAction.lpStop ∈ (shutdownRun c).1) ∧
    (c.mpPresent = true → SAction.mpStop ∈ (shutdownRun c).1) ∧
    (c.tpPresent = true → SAction.tpStop ∈ (shutdownRun c).1) ∧
    (shutdownResult c = none ↔
      (specShutdownOrder c).filter (failsOf c) = []) := by
  obtain ⟨p, l, m, t, e1, e2, e3, e4, e5, e6, e7⟩ := c
  revert p l m t e1 e2 e3 e4 e5 e6 e7
  decide

/-- The worst-case scenario: everything present and every call fails. -/
def ctxAllFail : ShutdownCtx :=
  { promServerPresent := true, lpPresent := true, mpPresent := true,
    tpPresent := true, serverStopFails := true, lpFlushFails := true,
    lpStopFails := true, mpFlushFails := true, mpStopFails := true,
    tpFlushFails := true, tpStopFails := true }

/-- Witness for C4: with every handle present and every call failing,
all seven calls are still attempted in order — in particular every stop
follows its flush — and the combined error holds all seven failures. -/
theorem shutdown_order_and_accumulation_witness :
    shutdownRun ctxAllFail =
      (specShutdownOrder ctxAllFail,
        (specShutdownOrder ctxAllFail).filter (failsOf ctxAllFail)) ∧
    SAction.lpStop ∈ (shutdownRun ctxAllFail).1 ∧
    SAction.mpStop ∈ (shutdownRun ctxAllFail).1 ∧
    SAction.tpStop ∈ (shutdownRun ctxAllFail).1 :=
  ⟨(shutdown_order_and_accumulation ctxAllFail).1,
   (shutdown_order_and_accumulation ctxAllFail).2.1 rfl,
   (shutdown_order_and_accumulation ctxAllFail).2.2.1 rfl,
   (shutdown_order_and_accumulation ctxAllFail).2.2.2.1 rfl⟩

/-! ## Caller-location resolver (`logger/caller.go`, `src/unnamed/part_011`)

The resolver works on the captured call stack, modelled as the list of
frame file names starting just above `runtime.Callers`' own frame
(innermost first). -/

/-- Whether `pat` occurs at the head of `hay`. -/
def substrAt : List Char → List Char → Bool
  | [], _ => true
  | _ :: _, [] => false
  | p :: ps, h :: hs => p == h && substrAt ps hs

/-- Whether `pat` occurs anywhere in `hay` (Go `strings.Contains`,
character-based, which agrees with Go's byte-based search on the ASCII
deny-list entries). -/
def containsAux (pat : List Char) : List Char → Bool
  | [] => substrAt pat []
  | h :: hs => substrAt pat (h :: hs) || containsAux pat hs

/-- `strings.Contains(s, pat)`. -/
def strContains (s pat : String) : Bool :=
  containsAux pat.toList s.toList

/-- `isInternalFrame` from `logger/caller.go` lines 53-75: the telemetry
library's own logger packages, the supported third-party logging
libraries, and runtime internals. -/
def isInternalFrame (file : String) : Bool :=
  if strContains file "go-telemetry/logger" then true
  else
    ["rs/zerolog", "uber.org/zap", "sirupsen/logrus", "log/slog",
      "runtime/"].any (fun pkg => strContains file pkg)

/-- The `for` loop of `FindFirstExternalCaller` (`logger/caller.go`
lines 29-45): increment the skip count per frame, return it plus the
constant offset 2 at the first external frame, and fall back to 3 when
the frames run out. -/
def findExternalLoop : List String → Nat → Nat
  | [], _ => 3
  | f :: rest, skipCount =>
    let skipCount := skipCount + 1
    if ! isInternalFrame f then skipCount + 2
    else findExternalLoop rest skipCount

/-- `FindFirstExternalCaller` from `logger/caller.go` lines 17-49: the
program-counter buffer holds at most 15 frames; an empty capture returns
the default skip count 3. -/
def FindFirstExternalCaller (stack : List String) : Nat :=
  let pc := stack.take 15
  if pc.length = 0 then 3
  else findExternalLoop pc 0

/-- The spec reading: the index of the first frame outside the
deny-list. -/
def firstExternalIdx : List String → Option Nat
  | [] => none
  | f :: rest =>
    if ! isInternalFrame f then some 0
    else (firstExternalIdx rest).map (· + 1)

theorem findExternalLoop_eq (frames : List String) :
    ∀ k : Nat, findExternalLoop frames k =
      match firstExternalIdx frames with
      | some i => k + i + 3
      | none => 3 := by
  induction frames with
  | nil => intro k; rfl
  | cons f rest ih =>
    intro k
    by_cases hf : isInternalFrame f = true
    · rw [show findExternalLoop (f :: rest) k = findExternalLoop rest (k + 1) from by
        simp only [findExternalLoop]; simp [hf]]
      rw [show firstExternalIdx (f :: rest) = (firstExternalIdx rest).map (· + 1) from by
        simp only [firstExternalIdx]; simp [hf]]
      rw [ih (k + 1)]
      cases hrest : firstExternalIdx rest with
      | none => rfl
      | some j =>
        show k + 1 + j + 3 = k + (j + 1) + 3
        omega
    · have hf2 : isInternalFrame f = false := by simpa using hf
      rw [show findExternalLoop (f :: rest) k = k + 1 + 2 from by
        simp only [findExternalLoop]; simp [hf2]]
      rw [show firstExternalIdx (f :: rest) = some 0 from by
        simp only [firstExternalIdx]; simp [hf2]]

/-- C7: the resolver inspects at most the 15 captured frames (its result
is unchanged by truncating the stack to 15); it returns the position of
the first frame outside the deny-list adjusted by the constant offset
(the 1-based position plus 2, i.e. index + 3); and when no external
frame exists within the window — or no frames were captured at all — it
returns the default skip count 3. Being a total function, it never
errors. -/
theorem findFirstExternalCaller_spec (stack : List String) :
    FindFirstExternalCaller stack =
      (match firstExternalIdx (stack.take 15) with
       | some i => i + 3
       | none => 3) ∧
    FindFirstExternalCaller stack = FindFirstExternalCaller (stack.take 15) ∧
    FindFirstExternalCaller [] = 3 := by
  refine ⟨?_, ?_, rfl⟩
  · unfold FindFirstExternalCaller
    by_cases hlen : (stack.take 15).length = 0
    · rw [List.length_eq_zero] at hlen
      rw [hlen]
      rfl
    · simp only [if_neg hlen]
      rw [findExternalLoop_eq]
      cases firstExternalIdx (stack.take 15) <;> simp
  · unfold FindFirstExternalCaller
    rw [List.take_take]
    norm_num

/-! ## OTel emission sinks (zap core, logrus hooks, slog handler)

The sinks translate one native structured field into one OTel log
attribute. A native field value is modelled by its dynamic type as the
sinks discriminate it; float64 payloads are carried opaquely as their
bit patterns (the sinks never inspect them). -/

/-- A `slog.Value`, discriminated by `Kind` as `convertAttr` does.
`other` covers every remaining kind, carrying the rendering that
`value.String()` would produce. -/
inductive SlogValue
  | str (s : String)
  | int64 (i : Int)
  | uint64 (n : Nat)
  | float64 (bits : Nat)
  | boolV (b : Bool)
  | other (stringRepr : String)
deriving DecidableEq, Repr

/-- An OTel `log.Value` as produced by the sinks. -/
inductive OTelValue
  | str (s : String)
  | int (i : Int)
  | float (bits : Nat)
  | boolV (b : Bool)
deriving DecidableEq, Repr

/-- An OTel `log.KeyValue` attribute. -/
structure OTelKeyValue where
  key : String
  value : OTelValue
deriving DecidableEq, Repr

/-- Go's `int64(u)` conversion on a `uint64` value: reduce mod 2^64 and
reinterpret as two's-complement signed. -/
def uint64ToInt64 (n : Nat) : Int :=
  let m : Nat := n % 2 ^ 64
  if m < 2 ^ 63 then (m : Int) else (m : Int) - 2 ^ 64

/-- `SlogOTelHandler.convertAttr` (`logger/slog/otel_handler.go` lines
115-133 and `src/unnamed/part_015` lines 340-359): typed conversion for
the known kinds, string rendering for the rest. -/
def convertAttr (key : String) (value : SlogValue) : OTelKeyValue :=
  match value with
  | .str s => { key := key, value := .str s }
  | .int64 i => { key := key, value := .int i }
  | .uint64 n => { key := key, value := .int (uint64ToInt64 n) }
  | .float64 bits => { key := key, value := .float bits }
  | .boolV b => { key := key, value := .boolV b }
  | .other r => { key := key, value := .str r }

/-- A Go `interface{}` field value as the zap/logrus `formatValue`
type-switch discriminates it: nil, string, error (carrying what
`Error()` returns), or anything else (int, float, bool, struct, ...). -/
inductive GoValue
  | nilV
  | str (s : String)
  | errV (msg : String)
  | intV (i : Int)
  | floatV (bits : Nat)
  | boolV (b : Bool)
  | otherV (desc : String)
deriving DecidableEq, Repr

/-- `formatValue`, defined identically in the zap core
(`src/unnamed/part_015` lines 176-190), the zap hook
(`src/unnamed/part_013`), and both logrus hooks
(`logger/logrus/otel_hook.go`, `hooks/logrus/logrus.go`): nil → "",
string → itself, error → its message, and every other type → "". -/
def formatValue : GoValue → String
  | .nilV => ""
  | .str s => s
  | .errV msg => msg
  | _ => ""

/-- The attribute the zap core emits per field (`ZapOTelCore.Write`,
`src/unnamed/part_015` line 140): always `log.String(key,
formatValue(value))`. -/
def zapFieldAttr (key : String) (v : GoValue) : OTelKeyValue :=
  { key := key, value := .str (formatValue v) }

/-- The attribute the logrus hooks emit per field (`OTelHook.Fire`,
`logger/logrus/otel_hook.go` line 54): always `log.String(key,
formatValue(value))`. -/
def logrusFieldAttr (key : String) (v : GoValue) : OTelKeyValue :=
  { key := key, value := .str (formatValue v) }

/-- C9 counterexample: the claim says every sink converts a known-int
field into a typed OTel attribute (or at worst a string representation
of the value). The zap core maps the int field 5 to a string attribute
holding the empty string — not the typed attribute and not a string
representation of 5 — and the logrus hooks do the same. -/
theorem sink_typed_conversion_counterexample :
    zapFieldAttr "count" (GoValue.intV 5) =
      { key := "count", value := OTelValue.str "" } ∧
    zapFieldAttr "count" (GoValue.intV 5) ≠
      { key := "count", value := OTelValue.int 5 } ∧
    zapFieldAttr "count" (GoValue.intV 5) ≠
      { key := "count", value := OTelValue.str "5" } ∧
    logrusFieldAttr "count" (GoValue.intV 5) =
      { key := "count", value := OTelValue.str "" } := by
  refine ⟨rfl, ?_, ?_, rfl⟩ <;> decide

/-- C9 as amended: only the slog handler performs typed conversion —
string, int64, uint64 (cast to int64), float64 and bool fields become
typed attributes and any other kind degrades to its string rendering —
while the zap core and the logrus hooks emit every field as a string
attribute that preserves strings and error messages and degrades every
other value type to the empty string; in particular a known-int field
never yields a typed attribute there. -/
theorem sink_conversion_behavior (key : String) :
    (∀ s, convertAttr key (SlogValue.str s) = { key := key, value := .str s }) ∧
    (∀ i, convertAttr key (SlogValue.int64 i) = { key := key, value := .int i }) ∧
    (∀ n, convertAttr key (SlogValue.uint64 n) =
      { key := key, value := .int (uint64ToInt64 n) }) ∧
    (∀ b, convertAttr key (SlogValue.float64 b) =
      { key := key, value := .float b }) ∧
    (∀ b, convertAttr key (SlogValue.boolV b) =
      { key := key, value := .boolV b }) ∧
    (∀ r, convertAttr key (SlogValue.other r) =
      { key := key, value := .str r }) ∧
    (∀ v, zapFieldAttr key v = { key := key, value := .str (formatValue v) } ∧
      logrusFieldAttr key v = { key := key, value := .str (formatValue v) }) ∧
    (∀ s, formatValue (GoValue.str s) = s) ∧
    (∀ m, formatValue (GoValue.errV m) = m) ∧
    (∀ i, formatValue (GoValue.intV i) = "" ∧
      ∀ j : Int, zapFieldAttr key (GoValue.intV i) ≠
        { key := key, value := OTelValue.int j }) ∧
    (∀ b, formatValue (GoValue.floatV b) = "") ∧
    (∀ b, formatValue (GoValue.boolV b) = "") ∧
    (∀ d, formatValue (GoValue.otherV d) = "") := by
  refine ⟨fun s => rfl, fun i => rfl, fun n => rfl, fun b => rfl, fun b => rfl,
    fun r => rfl, fun v => ⟨rfl, rfl⟩, fun s => rfl, fun m => rfl,
    fun i => ⟨rfl, fun j h => ?_⟩, fun b => rfl, fun b => rfl, fun d => rfl⟩
  simp [zapFieldAttr, formatValue] at h

end Telemetry
